import Mathlib

/-!
Shallow embedding of the learning-path service
(`src/youtube_service.py`, `src/gemini_service.py`, `src/routes.py`).

External effects (HTTP transport, the YouTube Data API, the Gemini model,
environment variables) are modelled as explicit inputs: the outcome of the
one HTTP request made by `search_youtube_videos` is a value of `HttpResult`,
and the outcome of the Gemini call made by `generate_learning_path_content`
is a value of `GenOutcome`.  Python exceptions never escape the functions
modelled here (every raise site is inside a `try` whose handler returns a
value), so each function is a total Lean function.
-/

namespace LearningPathAI

/-- A successfully-shaped item of the YouTube search response body
(`item['id']['videoId']`, `item['snippet'][...]`).  An item whose keys are
missing would raise inside the `try` of `search_youtube_videos` and is
subsumed by `Body.parseFail` below.  The `thumbnails` payload is opaque to
the code and is modelled as a string. -/
structure SearchItem where
  videoId : String
  snippet_title : String
  snippet_description : String
  snippet_channelTitle : String
  snippet_publishedAt : String
  snippet_thumbnails : String
deriving DecidableEq, Repr

/-- The normalized video record built at `youtube_service.py:58-65`. -/
structure VideoInfo where
  title : String
  url : String
  description : String
  channel : String
  published_at : String
  thumbnails : String
deriving DecidableEq, Repr

/-- Result of parsing the response body: `response.json()` (or a field
access on an item) raising is `parseFail`; otherwise the `items` list. -/
inductive Body where
  | parseFail
  | parsed (items : List SearchItem)
deriving DecidableEq, Repr

/-- Outcome of `requests.get` at `youtube_service.py:51`: a raised
exception (timeout, transport), or a response with a status code and a
body. -/
inductive HttpResult where
  | err
  | resp (status : Nat) (body : Body)
deriving DecidableEq, Repr

/-- `youtube_service.py:58-65`: build one `video_info` record from an item;
the description is cut to its first 200 characters plus `"..."` when longer
than 200 characters. -/
def videoInfoOfItem (item : SearchItem) : VideoInfo :=
  { title := item.snippet_title
    url := "https://www.youtube.com/watch?v=" ++ item.videoId
    description :=
      if item.snippet_description.length > 200 then
        item.snippet_description.take 200 ++ "..."
      else
        item.snippet_description
    channel := item.snippet_channelTitle
    published_at := item.snippet_publishedAt
    thumbnails := item.snippet_thumbnails }

/-- `search_youtube_videos` (`youtube_service.py:19-76`).  `api_key` models
`os.environ.get("YOUTUBE_API_KEY")`; `res` models the outcome of the single
HTTP request.  Missing key, transport error, non-200 status and body-parse
failure all return `[]`; on success the first `max_results` items are
normalized in provider order. -/
def search_youtube_videos (api_key : Option String) (res : HttpResult)
    (_query : String) (max_results : Nat) : List VideoInfo :=
  match api_key with
  | none => []
  | some _ =>
    match res with
    | .err => []
    | .resp status body =>
      if status = 200 then
        match body with
        | .parseFail => []
        | .parsed items => (items.take max_results).map videoInfoOfItem
      else []

/-- An entry of `youtube_recommendations`
(`{'title': ..., 'url': ..., 'keywords': [...]}`). -/
structure VideoRecommendation where
  title : String
  url : String
  keywords : List String
deriving DecidableEq, Repr

/-- A module of the learning path (`{'title': ..., 'subtopics': [...]}`). -/
structure Module where
  title : String
  subtopics : List String
deriving DecidableEq, Repr

/-- A quiz question
(`{'question': ..., 'options': [...], 'correct_answer': ...}`). -/
structure QuizQuestion where
  question : String
  options : List String
  correct_answer : String
deriving DecidableEq, Repr

/-- The learning-path dict assembled in `routes.py:50-55` and passed to
`enhance_learning_path_with_youtube`. -/
structure LearningPath where
  topic : String
  modules : List Module
  youtube_recommendations : List VideoRecommendation
  quiz_questions : List QuizQuestion
deriving DecidableEq, Repr

/-- The dedup-by-url loop of `youtube_service.py:167-174`: walk the
accumulated list front to back, keeping an entry only when its `url` has
not been seen; `seen` models the `seen_urls` set. -/
def dedupLoop (seen : List String) : List VideoRecommendation → List VideoRecommendation
  | [] => []
  | r :: rs =>
    if r.url ∈ seen then dedupLoop seen rs
    else r :: dedupLoop (r.url :: seen) rs

/-- `unique_recommendations` at `youtube_service.py:168-174`: the dedup
loop started with an empty `seen_urls` set. -/
def uniqueRecommendations (l : List VideoRecommendation) : List VideoRecommendation :=
  dedupLoop [] l

/-- `final_recommendations = unique_recommendations[:5]`
(`youtube_service.py:177`). -/
def finalRecommendations (l : List VideoRecommendation) : List VideoRecommendation :=
  (uniqueRecommendations l).take 5

/-- A search oracle: the behaviour of `search_youtube_videos` as seen by
the enhancer, one result list per `(query, max_results)` pair. -/
def SearchFun : Type := String → Nat → List VideoInfo

/-- `query.split()[-1]` on the queries built by the enhancer. -/
def lastWord (s : String) : String := ((s.splitOn " ").getLast?).getD ""

/-- The per-request mutable state of `enhance_learning_path_with_youtube`:
`enhanced_recommendations`, `searched_keywords`, and the number of
`search_youtube_videos` calls issued so far. -/
structure EnhState where
  recs : List VideoRecommendation
  searched_keywords : List String
  calls : Nat
deriving DecidableEq, Repr

/-- `topic_queries` (`youtube_service.py:97-101`). -/
def topicQueries (topic : String) : List String :=
  [topic ++ " complete tutorial", topic ++ " course for beginners", topic ++ " fundamentals"]

/-- One iteration of the topic-query loop (`youtube_service.py:103-112`):
search 2 videos and append them with keywords
`[topic.lower(), query.split()[-1], 'tutorial']`. -/
def topicStep (search : SearchFun) (topic : String) (st : EnhState) (query : String) : EnhState :=
  let videos := search query 2
  { st with
    recs := st.recs ++ videos.map (fun v => ⟨v.title, v.url, [topic.toLower, lastWord query, "tutorial"]⟩)
    calls := st.calls + 1 }

/-- `module_queries` (`youtube_service.py:120-124`). -/
def moduleQueries (topic title : String) : List String :=
  [title ++ " explained", title ++ " tutorial " ++ topic, topic ++ " " ++ title]

/-- The body of `for query in module_queries[:1]`
(`youtube_service.py:126-134`): search 1 video per query, append it with
keywords `[topic.lower(), module_title.lower(), 'module']`, then mark the
module title as searched. -/
def moduleTitleStep (search : SearchFun) (topic : String) (st : EnhState) (title : String) : EnhState :=
  ((moduleQueries topic title).take 1).foldl
    (fun s query =>
      let videos := search query 1
      { recs := s.recs ++ videos.map (fun v => ⟨v.title, v.url, [topic.toLower, title.toLower, "module"]⟩)
        searched_keywords := s.searched_keywords ++ [title]
        calls := s.calls + 1 })
    st

/-- `subtopic_queries` (`youtube_service.py:141-144`). -/
def subtopicQueries (topic subtopic : String) : List String :=
  [subtopic ++ " " ++ topic ++ " tutorial", topic ++ " " ++ subtopic ++ " explained"]

/-- One iteration of the subtopic loop (`youtube_service.py:138-154`):
skipped when the subtopic is empty (falsy) or already searched; otherwise
one query for 1 video with keywords
`[topic.lower(), subtopic.lower(), 'concept']`, then mark it searched. -/
def subtopicStep (search : SearchFun) (topic : String) (st : EnhState) (subtopic : String) : EnhState :=
  if subtopic ≠ "" ∧ subtopic ∉ st.searched_keywords then
    ((subtopicQueries topic subtopic).take 1).foldl
      (fun s query =>
        let videos := search query 1
        { recs := s.recs ++ videos.map (fun v => ⟨v.title, v.url, [topic.toLower, subtopic.toLower, "concept"]⟩)
          searched_keywords := s.searched_keywords ++ [subtopic]
          calls := s.calls + 1 })
      st
  else st

/-- One iteration of `for module in modules[:3]`
(`youtube_service.py:116-154`): the title query (skipped for an empty or
already-searched title) followed by the first 2 subtopics. -/
def moduleStep (search : SearchFun) (topic : String) (st : EnhState) (m : Module) : EnhState :=
  let st1 :=
    if m.title ≠ "" ∧ m.title ∉ st.searched_keywords then
      moduleTitleStep search topic st m.title
    else st
  (m.subtopics.take 2).foldl (subtopicStep search topic) st1

/-- The fill query (`youtube_service.py:157-165`): when fewer than 5
recommendations were collected, one search for `"{topic} advanced
tutorial"` requesting `5 - count` results. -/
def fillStep (search : SearchFun) (topic : String) (st : EnhState) : EnhState :=
  if st.recs.length < 5 then
    let videos := search (topic ++ " advanced tutorial") (5 - st.recs.length)
    { st with
      recs := st.recs ++ videos.map (fun v => ⟨v.title, v.url, [topic.toLower, "advanced", "tutorial"]⟩)
      calls := st.calls + 1 }
  else st

/-- The accumulation phase of `enhance_learning_path_with_youtube`
(`youtube_service.py:93-165`): topic queries, then the first 3 modules,
then the fill query. -/
def enhanceState (search : SearchFun) (topic : String) (path : LearningPath) : EnhState :=
  let st0 : EnhState := ⟨[], [], 0⟩
  let st1 := ((topicQueries topic).take 2).foldl (topicStep search topic) st0
  let st2 := (path.modules.take 3).foldl (moduleStep search topic) st1
  fillStep search topic st2

/-- `enhance_learning_path_with_youtube` (`youtube_service.py:78-186`):
accumulate, deduplicate by url, truncate to 5, and replace the path's
recommendations only when the result is non-empty. -/
def enhance_learning_path_with_youtube (search : SearchFun) (topic : String)
    (path : LearningPath) : LearningPath :=
  let final := finalRecommendations (enhanceState search topic path).recs
  if final ≠ [] then { path with youtube_recommendations := final } else path

/-- The number of `search_youtube_videos` calls one `enhance` pass issues. -/
def enhanceCallCount (search : SearchFun) (topic : String) (path : LearningPath) : Nat :=
  (enhanceState search topic path).calls

/-- A parsed generator response: each of the three keys may be absent
(`"modules" not in content`, etc.). -/
structure RawContent where
  modules? : Option (List Module)
  youtube_recommendations? : Option (List VideoRecommendation)
  quiz_questions? : Option (List QuizQuestion)
deriving DecidableEq, Repr

/-- The content returned by `generate_learning_path_content`: after the
cardinality repair (or a wholesale fallback) all three keys are present. -/
structure Content where
  modules : List Module
  youtube_recommendations : List VideoRecommendation
  quiz_questions : List QuizQuestion
deriving DecidableEq, Repr

/-- How the raw Gemini text parsed (`gemini_service.py:131-169`):
`json.loads(response.text)` succeeded (`ok`); it failed but the
regex-extracted `{...}` span parsed (`extracted`); the extracted span
itself failed to parse, so the `JSONDecodeError` escapes to the outer
`except Exception` handler (`extractedBad`); or no span was found and
the default structure is substituted (`noJson`). -/
inductive RawParse where
  | ok (c : RawContent)
  | extracted (c : RawContent)
  | extractedBad
  | noJson
deriving DecidableEq, Repr

/-- Outcome of the Gemini call (`gemini_service.py:122-128`): the
`asyncio.TimeoutError`, any other exception, or a text response that
parses as described by `RawParse`. -/
inductive GenOutcome where
  | timeout
  | error
  | response (p : RawParse)
deriving DecidableEq, Repr

/-- The default structure substituted when no JSON span is found in the
response (`gemini_service.py:144-169`). -/
def defaultParsedContent (topic : String) : RawContent :=
  { modules? := some
      [ { title := "Introduction to " ++ topic
          subtopics := ["Basics of " ++ topic, "Fundamentals of " ++ topic,
            "Getting Started with " ++ topic, "Core Concepts of " ++ topic,
            "Overview of " ++ topic] },
        { title := "Intermediate " ++ topic
          subtopics := ["Advanced " ++ topic ++ " Concepts", topic ++ " Best Practices",
            "Real-world " ++ topic ++ " Applications", topic ++ " Tools and Techniques",
            "Problem Solving with " ++ topic] } ]
    youtube_recommendations? := some
      [ { title := "Learn " ++ topic
          url := "https://youtube.com"
          keywords := [topic.toLower, "tutorial"] } ]
    quiz_questions? := some
      [ { question := "What is " ++ topic ++ "?"
          options := ["A", "B", "C", "D"]
          correct_answer := "A" } ] }

/-- The modules fallback substituted when `modules` is missing or has
fewer than 2 entries (`gemini_service.py:172-186`). -/
def repairModulesFallback (topic : String) : List Module :=
  [ { title := "Foundations of " ++ topic
      subtopics := ["Introduction to " ++ topic, "Basic Principles", "Core Components",
        "Essential Tools", "Getting Started"] },
    { title := "Intermediate " ++ topic
      subtopics := ["Advanced Concepts", "Practical Applications", "Problem Solving",
        "Best Practices", "Real-world Examples"] },
    { title := "Advanced " ++ topic
      subtopics := ["Expert Techniques", "Optimization Strategies", "Industry Applications",
        "Cutting-edge Developments", "Future Trends"] } ]

/-- The recommendations fallback substituted when `youtube_recommendations`
is missing or has fewer than 3 entries (`gemini_service.py:188-215`). -/
def repairRecommendationsFallback (topic : String) : List VideoRecommendation :=
  [ { title := "Complete " ++ topic ++ " Course for Beginners"
      url := "https://youtube.com/watch?v=beginner"
      keywords := [topic.toLower, "course", "beginner"] },
    { title := "Advanced " ++ topic ++ " Tutorial"
      url := "https://youtube.com/watch?v=advanced"
      keywords := [topic.toLower, "tutorial", "advanced"] },
    { title := topic ++ " Projects and Examples"
      url := "https://youtube.com/watch?v=projects"
      keywords := [topic.toLower, "projects", "examples"] },
    { title := topic ++ " Tips and Tricks"
      url := "https://youtube.com/watch?v=tips"
      keywords := [topic.toLower, "tips", "tricks"] },
    { title := "Mastering " ++ topic
      url := "https://youtube.com/watch?v=master"
      keywords := [topic.toLower, "master", "expert"] } ]

/-- The quiz fallback substituted when `quiz_questions` is missing or has
fewer than 5 entries (`gemini_service.py:217-269`). -/
def repairQuizFallback (topic : String) : List QuizQuestion :=
  [ { question := "What is the primary purpose of " ++ topic ++ "?"
      options := ["To solve " ++ topic ++ "-related problems", "To create art",
        "To play games", "To browse the internet"]
      correct_answer := "To solve " ++ topic ++ "-related problems" },
    { question := "Which of these is a fundamental concept in " ++ topic ++ "?"
      options := ["Core principle 1", "Random concept", "Irrelevant topic", "Unrelated field"]
      correct_answer := "Core principle 1" },
    { question := "What is an important skill in " ++ topic ++ "?"
      options := ["Key skill", "Unrelated ability", "Irrelevant knowledge", "Random talent"]
      correct_answer := "Key skill" },
    { question := "What tool is commonly used in " ++ topic ++ "?"
      options := ["Essential tool", "Unrelated software", "Irrelevant application", "Random program"]
      correct_answer := "Essential tool" },
    { question := "What is a benefit of learning " ++ topic ++ "?"
      options := ["Key benefit", "Unrelated advantage", "Irrelevant gain", "Random improvement"]
      correct_answer := "Key benefit" },
    { question := "What is a common challenge in " ++ topic ++ "?"
      options := ["Typical difficulty", "Unrelated obstacle", "Irrelevant problem", "Random issue"]
      correct_answer := "Typical difficulty" },
    { question := "What is an advanced technique in " ++ topic ++ "?"
      options := ["Expert method", "Basic approach", "Simple technique", "Elementary strategy"]
      correct_answer := "Expert method" },
    { question := "What is a best practice in " ++ topic ++ "?"
      options := ["Recommended approach", "Outdated method", "Inefficient technique", "Poor strategy"]
      correct_answer := "Recommended approach" },
    { question := "What is a real-world application of " ++ topic ++ "?"
      options := ["Practical use case", "Theoretical concept", "Academic exercise", "Hypothetical scenario"]
      correct_answer := "Practical use case" },
    { question := "What is the future of " ++ topic ++ "?"
      options := ["Emerging trend", "Declining field", "Stagnant area", "Obsolete technology"]
      correct_answer := "Emerging trend" } ]

/-- The cardinality repair applied to parsed content
(`gemini_service.py:172-269`): modules with fewer than 2 entries,
recommendations with fewer than 3, and quiz questions with fewer than 5
are each replaced by the corresponding deterministic fallback. -/
def repairContent (topic : String) (c : RawContent) : Content :=
  { modules :=
      match c.modules? with
      | some ms => if ms.length < 2 then repairModulesFallback topic else ms
      | none => repairModulesFallback topic
    youtube_recommendations :=
      match c.youtube_recommendations? with
      | some rs => if rs.length < 3 then repairRecommendationsFallback topic else rs
      | none => repairRecommendationsFallback topic
    quiz_questions :=
      match c.quiz_questions? with
      | some qs => if qs.length < 5 then repairQuizFallback topic else qs
      | none => repairQuizFallback topic }

/-- The wholesale fallback returned from the `asyncio.TimeoutError`
handler (`gemini_service.py:273-370`). -/
def timeoutFallbackContent (topic : String) : Content :=
  { modules :=
      [ { title := "Introduction to " ++ topic
          subtopics := ["Basics of " ++ topic, "Fundamentals of " ++ topic,
            "Getting Started with " ++ topic, "Core Concepts of " ++ topic,
            "Overview of " ++ topic] },
        { title := "Intermediate " ++ topic
          subtopics := ["Advanced " ++ topic ++ " Concepts", topic ++ " Best Practices",
            "Real-world " ++ topic ++ " Applications", topic ++ " Tools and Techniques",
            "Problem Solving with " ++ topic] },
        { title := "Advanced " ++ topic
          subtopics := ["Expert Techniques", "Optimization Strategies", "Industry Applications",
            "Cutting-edge Developments", "Future Trends"] } ]
    youtube_recommendations :=
      [ { title := "Complete " ++ topic ++ " Tutorial for Beginners"
          url := "https://youtube.com"
          keywords := [topic.toLower, "tutorial", "beginner"] },
        { title := "Advanced " ++ topic ++ " Techniques"
          url := "https://youtube.com"
          keywords := [topic.toLower, "advanced", "techniques"] },
        { title := topic ++ " Projects and Examples"
          url := "https://youtube.com"
          keywords := [topic.toLower, "projects", "examples"] },
        { title := topic ++ " Tips and Tricks"
          url := "https://youtube.com"
          keywords := [topic.toLower, "tips", "tricks"] },
        { title := "Mastering " ++ topic
          url := "https://youtube.com"
          keywords := [topic.toLower, "master", "expert"] } ]
    quiz_questions :=
      [ { question := "What is " ++ topic ++ " primarily used for?"
          options := ["To solve " ++ topic ++ "-related problems", "To create art",
            "To play games", "To browse the internet"]
          correct_answer := "To solve " ++ topic ++ "-related problems" },
        { question := "Which of these is a fundamental concept in " ++ topic ++ "?"
          options := ["Core principle 1", "Random concept", "Irrelevant topic", "Unrelated field"]
          correct_answer := "Core principle 1" },
        { question := "What is an important skill in " ++ topic ++ "?"
          options := ["Key skill", "Unrelated ability", "Irrelevant knowledge", "Random talent"]
          correct_answer := "Key skill" },
        { question := "What tool is commonly used in " ++ topic ++ "?"
          options := ["Essential tool", "Unrelated software", "Irrelevant application", "Random program"]
          correct_answer := "Essential tool" },
        { question := "What is a benefit of learning " ++ topic ++ "?"
          options := ["Key benefit", "Unrelated advantage", "Irrelevant gain", "Random improvement"]
          correct_answer := "Key benefit" },
        { question := "What is a common challenge in " ++ topic ++ "?"
          options := ["Typical difficulty", "Unrelated obstacle", "Irrelevant problem", "Random issue"]
          correct_answer := "Typical difficulty" },
        { question := "What is an advanced technique in " ++ topic ++ "?"
          options := ["Expert method", "Basic approach", "Simple technique", "Elementary strategy"]
          correct_answer := "Expert method" },
        { question := "What is a best practice in " ++ topic ++ "?"
          options := ["Recommended approach", "Outdated method", "Inefficient technique", "Poor strategy"]
          correct_answer := "Recommended approach" },
        { question := "What is a real-world application of " ++ topic ++ "?"
          options := ["Practical use case", "Theoretical concept", "Academic exercise", "Hypothetical scenario"]
          correct_answer := "Practical use case" },
        { question := "What is the future of " ++ topic ++ "?"
          options := ["Emerging trend", "Declining field", "Stagnant area", "Obsolete technology"]
          correct_answer := "Emerging trend" } ] }

/-- The wholesale fallback returned from the generic `except Exception`
handler (`gemini_service.py:371-468`); its source block is token-identical
to the timeout block. -/
def errorFallbackContent (topic : String) : Content :=
  { modules :=
      [ { title := "Introduction to " ++ topic
          subtopics := ["Basics of " ++ topic, "Fundamentals of " ++ topic,
            "Getting Started with " ++ topic, "Core Concepts of " ++ topic,
            "Overview of " ++ topic] },
        { title := "Intermediate " ++ topic
          subtopics := ["Advanced " ++ topic ++ " Concepts", topic ++ " Best Practices",
            "Real-world " ++ topic ++ " Applications", topic ++ " Tools and Techniques",
            "Problem Solving with " ++ topic] },
        { title := "Advanced " ++ topic
          subtopics := ["Expert Techniques", "Optimization Strategies", "Industry Applications",
            "Cutting-edge Developments", "Future Trends"] } ]
    youtube_recommendations :=
      [ { title := "Complete " ++ topic ++ " Tutorial for Beginners"
          url := "https://youtube.com"
          keywords := [topic.toLower, "tutorial", "beginner"] },
        { title := "Advanced " ++ topic ++ " Techniques"
          url := "https://youtube.com"
          keywords := [topic.toLower, "advanced", "techniques"] },
        { title := topic ++ " Projects and Examples"
          url := "https://youtube.com"
          keywords := [topic.toLower, "projects", "examples"] },
        { title := topic ++ " Tips and Tricks"
          url := "https://youtube.com"
          keywords := [topic.toLower, "tips", "tricks"] },
        { title := "Mastering " ++ topic
          url := "https://youtube.com"
          keywords := [topic.toLower, "master", "expert"] } ]
    quiz_questions :=
      [ { question := "What is " ++ topic ++ " primarily used for?"
          options := ["To solve " ++ topic ++ "-related problems", "To create art",
            "To play games", "To browse the internet"]
          correct_answer := "To solve " ++ topic ++ "-related problems" },
        { question := "Which of these is a fundamental concept in " ++ topic ++ "?"
          options := ["Core principle 1", "Random concept", "Irrelevant topic", "Unrelated field"]
          correct_answer := "Core principle 1" },
        { question := "What is an important skill in " ++ topic ++ "?"
          options := ["Key skill", "Unrelated ability", "Irrelevant knowledge", "Random talent"]
          correct_answer := "Key skill" },
        { question := "What tool is commonly used in " ++ topic ++ "?"
          options := ["Essential tool", "Unrelated software", "Irrelevant application", "Random program"]
          correct_answer := "Essential tool" },
        { question := "What is a benefit of learning " ++ topic ++ "?"
          options := ["Key benefit", "Unrelated advantage", "Irrelevant gain", "Random improvement"]
          correct_answer := "Key benefit" },
        { question := "What is a common challenge in " ++ topic ++ "?"
          options := ["Typical difficulty", "Unrelated obstacle", "Irrelevant problem", "Random issue"]
          correct_answer := "Typical difficulty" },
        { question := "What is an advanced technique in " ++ topic ++ "?"
          options := ["Expert method", "Basic approach", "Simple technique", "Elementary strategy"]
          correct_answer := "Expert method" },
        { question := "What is a best practice in " ++ topic ++ "?"
          options := ["Recommended approach", "Outdated method", "Inefficient technique", "Poor strategy"]
          correct_answer := "Recommended approach" },
        { question := "What is a real-world application of " ++ topic ++ "?"
          options := ["Practical use case", "Theoretical concept", "Academic exercise", "Hypothetical scenario"]
          correct_answer := "Practical use case" },
        { question := "What is the future of " ++ topic ++ "?"
          options := ["Emerging trend", "Declining field", "Stagnant area", "Obsolete technology"]
          correct_answer := "Emerging trend" } ] }

/-- `generate_learning_path_content` (`gemini_service.py:32-468`) as a
function of the topic and the outcome of the Gemini call. -/
def generate_learning_path_content (topic : String) (o : GenOutcome) : Content :=
  match o with
  | .timeout => timeoutFallbackContent topic
  | .error => errorFallbackContent topic
  | .response (.ok c) => repairContent topic c
  | .response (.extracted c) => repairContent topic c
  | .response .extractedBad => errorFallbackContent topic
  | .response .noJson => repairContent topic (defaultParsedContent topic)

/-- The learning-path dict assembled from generated content in
`routes.py:50-55`. -/
def assemblePath (topic : String) (c : Content) : LearningPath :=
  { topic := topic
    modules := c.modules
    youtube_recommendations := c.youtube_recommendations
    quiz_questions := c.quiz_questions }

/-- A search oracle that finds nothing, as when the provider is down or
the credential is missing. -/
def emptySearch : SearchFun := fun _ _ => []

/-- The learning path a request for topic `"Rust"` assembles when the
generator call times out (`routes.py:47-55`). -/
def rustTimeoutPath : LearningPath :=
  assemblePath "Rust" (generate_learning_path_content "Rust" .timeout)

/-- The repair condition of `gemini_service.py:172`:
`"modules" not in content or len(content["modules"]) < 2`. -/
def modulesDeficient (c : RawContent) : Prop :=
  match c.modules? with
  | none => True
  | some ms => ms.length < 2

/-! ### Properties of the dedup-by-url loop -/

theorem dedupLoop_sublist (seen : List String) (l : List VideoRecommendation) :
    List.Sublist (dedupLoop seen l) l := by
  induction l generalizing seen with
  | nil => simp [dedupLoop]
  | cons a rs ih =>
    by_cases h : a.url ∈ seen
    · simp only [dedupLoop, if_pos h]
      exact (ih seen).cons a
    · simp only [dedupLoop, if_neg h]
      exact (ih (a.url :: seen)).cons₂ a

theorem dedupLoop_url_not_mem (seen : List String) (l : List VideoRecommendation) :
    ∀ r ∈ dedupLoop seen l, r.url ∉ seen := by
  induction l generalizing seen with
  | nil => simp [dedupLoop]
  | cons a rs ih =>
    by_cases h : a.url ∈ seen
    · simp only [dedupLoop, if_pos h]
      exact ih seen
    · simp only [dedupLoop, if_neg h]
      intro r hr
      rcases List.mem_cons.mp hr with rfl | hr'
      · exact h
      · intro hs
        exact ih (a.url :: seen) r hr' (List.mem_cons_of_mem _ hs)

theorem dedupLoop_pairwise (seen : List String) (l : List VideoRecommendation) :
    (dedupLoop seen l).Pairwise (fun a b => a.url ≠ b.url) := by
  induction l generalizing seen with
  | nil => simp [dedupLoop]
  | cons a rs ih =>
    by_cases h : a.url ∈ seen
    · simp only [dedupLoop, if_pos h]
      exact ih seen
    · simp only [dedupLoop, if_neg h]
      refine List.Pairwise.cons ?_ (ih (a.url :: seen))
      intro b hb he
      exact dedupLoop_url_not_mem (a.url :: seen) rs b hb (he ▸ List.mem_cons_self a.url seen)

theorem dedupLoop_keeps_first (seen : List String) (l : List VideoRecommendation) :
    ∀ r ∈ dedupLoop seen l,
      r.url ∉ seen ∧ l.find? (fun x => x.url == r.url) = some r := by
  induction l generalizing seen with
  | nil => simp [dedupLoop]
  | cons a rs ih =>
    by_cases h : a.url ∈ seen
    · simp only [dedupLoop, if_pos h]
      intro r hr
      obtain ⟨hns, hf⟩ := ih seen r hr
      refine ⟨hns, ?_⟩
      rw [List.find?_cons_of_neg _ ?_, hf]
      simp only [beq_iff_eq]
      intro he
      exact hns (he ▸ h)
    · simp only [dedupLoop, if_neg h]
      intro r hr
      rcases List.mem_cons.mp hr with rfl | hr'
      · exact ⟨h, by rw [List.find?_cons_of_pos _ (by simp)]⟩
      · obtain ⟨hns, hf⟩ := ih (a.url :: seen) r hr'
        have hne : a.url ≠ r.url := fun he => hns (he ▸ List.mem_cons_self a.url seen)
        refine ⟨fun hs => hns (List.mem_cons_of_mem _ hs), ?_⟩
        rw [List.find?_cons_of_neg _ ?_, hf]
        simpa using hne

theorem dedupLoop_covers (seen : List String) (l : List VideoRecommendation) :
    ∀ x ∈ l, x.url ∈ seen ∨ ∃ r ∈ dedupLoop seen l, r.url = x.url := by
  induction l generalizing seen with
  | nil => simp
  | cons a rs ih =>
    intro x hx
    by_cases h : a.url ∈ seen
    · simp only [dedupLoop, if_pos h]
      rcases List.mem_cons.mp hx with rfl | hx'
      · exact Or.inl h
      · exact ih seen x hx'
    · simp only [dedupLoop, if_neg h]
      rcases List.mem_cons.mp hx with he | hx'
      · exact Or.inr ⟨a, List.mem_cons_self a _, by rw [he]⟩
      · rcases ih (a.url :: seen) x hx' with hs | ⟨r, hr, hre⟩
        · rcases List.mem_cons.mp hs with he | hs'
          · exact Or.inr ⟨a, List.mem_cons_self a _, he.symm⟩
          · exact Or.inl hs'
        · exact Or.inr ⟨r, List.mem_cons_of_mem _ hr, hre⟩

theorem dedupLoop_eq_self (seen : List String) (l : List VideoRecommendation)
    (h1 : l.Pairwise (fun a b => a.url ≠ b.url))
    (h2 : ∀ r ∈ l, r.url ∉ seen) :
    dedupLoop seen l = l := by
  induction l generalizing seen with
  | nil => rfl
  | cons a rs ih =>
    have ha : a.url ∉ seen := h2 a (List.mem_cons_self a rs)
    simp only [dedupLoop, if_neg ha]
    congr 1
    refine ih (a.url :: seen) (List.pairwise_cons.mp h1).2 ?_
    intro r hr hs
    rcases List.mem_cons.mp hs with he | hs'
    · exact (List.pairwise_cons.mp h1).1 r hr he.symm
    · exact h2 r (List.mem_cons_of_mem _ hr) hs'

/-! ### Counting the search calls of one enhancement pass -/

theorem foldl_calls_le {α : Type} (f : EnhState → α → EnhState) (k : Nat)
    (hf : ∀ s x, (f s x).calls ≤ s.calls + k) :
    ∀ (l : List α) (s : EnhState), (l.foldl f s).calls ≤ s.calls + k * l.length := by
  intro l
  induction l with
  | nil => intro s; simp
  | cons x xs ih =>
    intro s
    have h1 := ih (f s x)
    have h2 := hf s x
    simp only [List.foldl_cons, List.length_cons, Nat.mul_succ]
    omega

theorem topicStep_calls (search : SearchFun) (topic : String) (s : EnhState) (q : String) :
    (topicStep search topic s q).calls = s.calls + 1 := rfl

theorem moduleTitleStep_calls (search : SearchFun) (topic : String) (s : EnhState) (t : String) :
    (moduleTitleStep search topic s t).calls = s.calls + 1 := rfl

theorem subtopicStep_calls (search : SearchFun) (topic : String) (s : EnhState) (x : String) :
    (subtopicStep search topic s x).calls ≤ s.calls + 1 := by
  unfold subtopicStep
  split
  · exact Nat.le_refl _
  · exact Nat.le_succ _

theorem moduleStep_calls (search : SearchFun) (topic : String) (s : EnhState) (m : Module) :
    (moduleStep search topic s m).calls ≤ s.calls + 3 := by
  unfold moduleStep
  simp only []
  have h1 : (if m.title ≠ "" ∧ m.title ∉ s.searched_keywords then
      moduleTitleStep search topic s m.title else s).calls ≤ s.calls + 1 := by
    split
    · exact Nat.le_of_eq (moduleTitleStep_calls search topic s m.title)
    · exact Nat.le_succ _
  have h2 := foldl_calls_le (subtopicStep search topic) 1
    (fun s' x => subtopicStep_calls search topic s' x) (m.subtopics.take 2)
    (if m.title ≠ "" ∧ m.title ∉ s.searched_keywords then
      moduleTitleStep search topic s m.title else s)
  have h3 : (m.subtopics.take 2).length ≤ 2 := List.length_take_le 2 _
  omega

/-! ### The enhancer with an everywhere-empty search oracle -/

theorem foldl_recs_eq {α : Type} (f : EnhState → α → EnhState)
    (hf : ∀ s x, (f s x).recs = s.recs) :
    ∀ (l : List α) (s : EnhState), (l.foldl f s).recs = s.recs := by
  intro l
  induction l with
  | nil => intro s; rfl
  | cons x xs ih =>
    intro s
    rw [List.foldl_cons, ih, hf]

/-! ### Well-formedness of the fallback quiz blocks -/

theorem repairQuizFallback_wellformed (topic : String) :
    ∀ q ∈ repairQuizFallback topic, q.options.length = 4 ∧ q.correct_answer ∈ q.options := by
  intro q hq
  simp only [repairQuizFallback, List.mem_cons, List.not_mem_nil, or_false] at hq
  rcases hq with rfl | rfl | rfl | rfl | rfl | rfl | rfl | rfl | rfl | rfl <;>
    exact ⟨rfl, by simp⟩

theorem errorFallback_quiz_wellformed (topic : String) :
    ∀ q ∈ (errorFallbackContent topic).quiz_questions,
      q.options.length = 4 ∧ q.correct_answer ∈ q.options := by
  intro q hq
  simp only [errorFallbackContent, List.mem_cons, List.not_mem_nil, or_false] at hq
  rcases hq with rfl | rfl | rfl | rfl | rfl | rfl | rfl | rfl | rfl | rfl <;>
    exact ⟨rfl, by simp⟩

/-! ### The claims -/

/-- C1, counterexample: for the generation request with topic `"Rust"`
whose generator call times out and whose search calls all return empty,
the final returned `youtube_recommendations` is the generator fallback —
five entries that all share the url `"https://youtube.com"` — so the
claimed no-duplicate-url invariant fails. -/
theorem C1_counterexample :
    ¬ (((enhance_learning_path_with_youtube emptySearch "Rust"
        rustTimeoutPath).youtube_recommendations.map
          (fun r => r.url)).Nodup) := by decide

/-- C1, amended: after enhancement, either the recommendations were left
exactly as the generator supplied them (no real video was found), or they
were replaced by a list of at most 5 entries with pairwise-distinct urls.
The ≤5/no-duplicate invariant holds only in the replacement case. -/
theorem C1_enhanced_recommendations_bounded (search : SearchFun) (topic : String)
    (path : LearningPath) :
    (enhance_learning_path_with_youtube search topic path).youtube_recommendations
        = path.youtube_recommendations ∨
    ((enhance_learning_path_with_youtube search topic path).youtube_recommendations.length ≤ 5 ∧
      ((enhance_learning_path_with_youtube search topic path).youtube_recommendations.map
        (fun r => r.url)).Nodup) := by
  unfold enhance_learning_path_with_youtube
  simp only []
  by_cases h : finalRecommendations (enhanceState search topic path).recs ≠ []
  · rw [if_pos h]
    refine Or.inr ⟨?_, ?_⟩
    · show (finalRecommendations (enhanceState search topic path).recs).length ≤ 5
      exact List.length_take_le 5 (uniqueRecommendations (enhanceState search topic path).recs)
    · have hpw5 : ((dedupLoop [] (enhanceState search topic path).recs).take 5).Pairwise
          (fun a b => a.url ≠ b.url) :=
        List.Pairwise.sublist (List.take_sublist 5 _)
          (dedupLoop_pairwise [] (enhanceState search topic path).recs)
      have hmap : (((dedupLoop [] (enhanceState search topic path).recs).take 5).map
          (fun r => r.url)).Pairwise (fun a b => a ≠ b) := List.pairwise_map.mpr hpw5
      simpa [finalRecommendations, uniqueRecommendations, List.Nodup] using hmap
  · rw [if_neg h]
    exact Or.inl rfl

/-- C2, counterexample: at topic `"Rust"` the content returned on timeout
is not the content assembled from the three self-repair fallback blocks
(already the first module is titled `"Introduction to Rust"` rather than
`"Foundations of Rust"`, and the fallback recommendation urls differ). -/
theorem C2_counterexample :
    generate_learning_path_content "Rust" .timeout ≠
      Content.mk (repairModulesFallback "Rust") (repairRecommendationsFallback "Rust")
        (repairQuizFallback "Rust") := by decide

/-- C2, amended: on outright failure the timeout handler and the generic
exception handler return identical topic-parametrized fallback content
(their source blocks are token-identical), but this content is not the
one the self-repair path substitutes for under-cardinality fields: for
every topic the modules block alone already differs. -/
theorem C2_error_fallbacks_identical (topic : String) :
    generate_learning_path_content topic .timeout
        = generate_learning_path_content topic .error ∧
    (generate_learning_path_content topic .timeout).modules ≠ repairModulesFallback topic := by
  refine ⟨rfl, ?_⟩
  intro h
  have h0 : (generate_learning_path_content topic .timeout).modules.map Module.title
      = (repairModulesFallback topic).map Module.title := by rw [h]
  simp only [generate_learning_path_content, timeoutFallbackContent, repairModulesFallback,
    List.map_cons, List.map_nil, List.cons.injEq, and_true] at h0
  have hl := congrArg String.length h0
  rw [String.length_append, String.length_append] at hl
  have e1 : "Introduction to ".length = 16 := rfl
  have e2 : "Foundations of ".length = 15 := rfl
  omega

/-- C3: one enhancement pass issues at most 12 underlying search calls:
2 topic queries, at most 1 per module for the first 3 modules, at most 1
per subtopic for the first 2 subtopics of each of those modules, and at
most 1 fill query. -/
theorem C3_call_budget (search : SearchFun) (topic : String) (path : LearningPath) :
    enhanceCallCount search topic path ≤ 12 := by
  unfold enhanceCallCount enhanceState
  simp only []
  have h1 : (((topicQueries topic).take 2).foldl (topicStep search topic) ⟨[], [], 0⟩).calls
      = 2 := rfl
  have h2 := foldl_calls_le (moduleStep search topic) 3
    (fun s m => moduleStep_calls search topic s m) (path.modules.take 3)
    (((topicQueries topic).take 2).foldl (topicStep search topic) ⟨[], [], 0⟩)
  have h3 : (path.modules.take 3).length ≤ 3 := List.length_take_le 3 _
  have h4 : ∀ s, (fillStep search topic s).calls ≤ s.calls + 1 := by
    intro s
    unfold fillStep
    split
    · exact Nat.le_refl _
    · exact Nat.le_succ _
  have h5 := h4 ((path.modules.take 3).foldl (moduleStep search topic)
    (((topicQueries topic).take 2).foldl (topicStep search topic) ⟨[], [], 0⟩))
  omega

/-- C4: `search_youtube_videos` returns the empty list whenever the
credential is missing, the transport raises, the status is not 200, or
the body fails to parse; no exception reaches the caller (the function is
total). -/
theorem C4_search_failure_empty (q : String) (n : Nat) (key : Option String)
    (res : HttpResult)
    (h : key = none ∨ res = .err ∨
      ∃ s b, res = .resp s b ∧ (s ≠ 200 ∨ b = .parseFail)) :
    search_youtube_videos key res q n = [] := by
  cases key with
  | none => rfl
  | some k =>
    rcases h with hk | rfl | ⟨s, b, rfl, hs | rfl⟩
    · exact absurd hk (by simp)
    · rfl
    · simp [search_youtube_videos, hs]
    · by_cases h200 : s = 200 <;> simp [search_youtube_videos, h200]

/-- C4, witness: a transport error with a present credential yields the
empty list. -/
theorem C4_witness :
    ((some "k" : Option String) = none ∨ HttpResult.err = HttpResult.err ∨
      ∃ s b, HttpResult.err = HttpResult.resp s b ∧ (s ≠ 200 ∨ b = Body.parseFail)) ∧
    search_youtube_videos (some "k") .err "machine learning" 5 = [] :=
  ⟨Or.inr (Or.inl rfl),
   C4_search_failure_empty "machine learning" 5 (some "k") .err (Or.inr (Or.inl rfl))⟩

/-- C5: when every underlying search call returns the empty list, the
enhancement pass returns the learning path unchanged — in particular the
generator-supplied `youtube_recommendations` are kept. -/
theorem C5_empty_search_keeps_path (search : SearchFun) (topic : String)
    (path : LearningPath) (hs : ∀ q n, search q n = []) :
    enhance_learning_path_with_youtube search topic path = path := by
  have hts : ∀ s q, (topicStep search topic s q).recs = s.recs := by
    intro s q
    simp [topicStep, hs]
  have hmts : ∀ s t, (moduleTitleStep search topic s t).recs = s.recs := by
    intro s t
    simp [moduleTitleStep, moduleQueries, hs]
  have hsts : ∀ s x, (subtopicStep search topic s x).recs = s.recs := by
    intro s x
    unfold subtopicStep
    split
    · simp [subtopicQueries, hs]
    · rfl
  have hms : ∀ s m, (moduleStep search topic s m).recs = s.recs := by
    intro s m
    unfold moduleStep
    simp only []
    rw [foldl_recs_eq _ hsts]
    split
    · exact hmts s m.title
    · rfl
  have hfill : ∀ s, (fillStep search topic s).recs = s.recs := by
    intro s
    unfold fillStep
    split
    · simp [hs]
    · rfl
  have hrecs : (enhanceState search topic path).recs = [] := by
    unfold enhanceState
    simp only []
    rw [hfill, foldl_recs_eq _ hms, foldl_recs_eq _ hts]
  unfold enhance_learning_path_with_youtube
  simp only []
  rw [hrecs]
  simp [finalRecommendations, uniqueRecommendations, dedupLoop]

/-- C5, witness: with the everywhere-empty oracle, the `"Rust"` path built
from the timeout fallback passes through enhancement unchanged. -/
theorem C5_witness :
    emptySearch "Rust fundamentals" 2 = [] ∧
    enhance_learning_path_with_youtube emptySearch "Rust" rustTimeoutPath = rustTimeoutPath :=
  ⟨rfl, C5_empty_search_keeps_path emptySearch "Rust" rustTimeoutPath (fun _ _ => rfl)⟩

/-- C6: the dedup step keeps, for each url, exactly the first-seen entry
of the accumulated list (`find?` by that url returns precisely the kept
entry, and every url of the input is represented), preserves first-seen
order (the result is a sublist), and the final list is the first 5 entries
of the deduplicated one. -/
theorem C6_dedup_keeps_first (l : List VideoRecommendation) :
    finalRecommendations l = (uniqueRecommendations l).take 5 ∧
    List.Sublist (uniqueRecommendations l) l ∧
    (∀ r ∈ uniqueRecommendations l, l.find? (fun x => x.url == r.url) = some r) ∧
    (∀ x ∈ l, ∃ r ∈ uniqueRecommendations l, r.url = x.url) :=
  ⟨rfl, dedupLoop_sublist [] l,
   fun r hr => (dedupLoop_keeps_first [] l r hr).2,
   fun x hx => (dedupLoop_covers [] l x hx).resolve_left (List.not_mem_nil x.url)⟩

/-- C7: the dedup-then-truncate-to-5 step is idempotent. -/
theorem C7_dedup_idempotent (l : List VideoRecommendation) :
    finalRecommendations (finalRecommendations l) = finalRecommendations l := by
  unfold finalRecommendations uniqueRecommendations
  have hpw5 : ((dedupLoop [] l).take 5).Pairwise (fun a b => a.url ≠ b.url) :=
    List.Pairwise.sublist (List.take_sublist 5 _) (dedupLoop_pairwise [] l)
  rw [dedupLoop_eq_self [] _ hpw5 (fun r _ => List.not_mem_nil r.url), List.take_take,
    Nat.min_self]

/-- C8: when the generator text cannot be parsed as JSON — whether a
`{...}` span was found but failed to parse (the error escaping to the
generic handler) or no span was found at all (the default structure, whose
single quiz question triggers the repair) — the returned content has
exactly 10 quiz questions, each with 4 options and a `correct_answer`
among its options. -/
theorem C8_malformed_quiz_shape (topic : String) (p : RawParse)
    (h : p = .extractedBad ∨ p = .noJson) :
    (generate_learning_path_content topic (.response p)).quiz_questions.length = 10 ∧
    ∀ q ∈ (generate_learning_path_content topic (.response p)).quiz_questions,
      q.options.length = 4 ∧ q.correct_answer ∈ q.options := by
  rcases h with rfl | rfl
  · exact ⟨rfl, errorFallback_quiz_wellformed topic⟩
  · have hq : (generate_learning_path_content topic (.response .noJson)).quiz_questions
        = repairQuizFallback topic := rfl
    rw [hq]
    exact ⟨rfl, repairQuizFallback_wellformed topic⟩

/-- C8, witness: topic `"Python Programming"` with a response holding no
JSON span. -/
theorem C8_witness :
    (RawParse.noJson = RawParse.extractedBad ∨ RawParse.noJson = RawParse.noJson) ∧
    ((generate_learning_path_content "Python Programming"
        (.response .noJson)).quiz_questions.length = 10 ∧
      ∀ q ∈ (generate_learning_path_content "Python Programming"
          (.response .noJson)).quiz_questions,
        q.options.length = 4 ∧ q.correct_answer ∈ q.options) :=
  ⟨Or.inr rfl, C8_malformed_quiz_shape "Python Programming" .noJson (Or.inr rfl)⟩

/-- C9: when the parsed generator output has no `modules` key or fewer
than 2 modules, the repaired content's modules are the deterministic
3-module fallback, whose titles include `"Foundations of {topic}"`,
`"Intermediate {topic}"` and `"Advanced {topic}"`. -/
theorem C9_modules_repair (topic : String) (raw : RawContent)
    (h : modulesDeficient raw) :
    3 ≤ (generate_learning_path_content topic (.response (.ok raw))).modules.length ∧
    ("Foundations of " ++ topic)
        ∈ (generate_learning_path_content topic (.response (.ok raw))).modules.map Module.title ∧
    ("Intermediate " ++ topic)
        ∈ (generate_learning_path_content topic (.response (.ok raw))).modules.map Module.title ∧
    ("Advanced " ++ topic)
        ∈ (generate_learning_path_content topic (.response (.ok raw))).modules.map Module.title := by
  have hm : (generate_learning_path_content topic (.response (.ok raw))).modules
      = repairModulesFallback topic := by
    show (repairContent topic raw).modules = repairModulesFallback topic
    cases hc : raw.modules? with
    | none => simp [repairContent, hc]
    | some ms =>
      simp only [modulesDeficient, hc] at h
      simp [repairContent, hc, h]
  rw [hm]
  refine ⟨by simp [repairModulesFallback], ?_, ?_, ?_⟩ <;> simp [repairModulesFallback]

/-- C9, witness: a parsed output with a single module is repaired, for
topic `"Python"`, into the 3-module fallback with the three deterministic
titles. -/
theorem C9_witness :
    modulesDeficient (RawContent.mk (some [Module.mk "Solo" []]) none none) ∧
    (3 ≤ (generate_learning_path_content "Python"
        (.response (.ok (RawContent.mk (some [Module.mk "Solo" []]) none none)))).modules.length ∧
      ("Foundations of " ++ "Python")
          ∈ (generate_learning_path_content "Python"
            (.response (.ok (RawContent.mk (some [Module.mk "Solo" []]) none none)))).modules.map Module.title ∧
      ("Intermediate " ++ "Python")
          ∈ (generate_learning_path_content "Python"
            (.response (.ok (RawContent.mk (some [Module.mk "Solo" []]) none none)))).modules.map Module.title ∧
      ("Advanced " ++ "Python")
          ∈ (generate_learning_path_content "Python"
            (.response (.ok (RawContent.mk (some [Module.mk "Solo" []]) none none)))).modules.map Module.title) :=
  ⟨by simp [modulesDeficient],
   C9_modules_repair "Python" (RawContent.mk (some [Module.mk "Solo" []]) none none)
     (by simp [modulesDeficient])⟩

/-- C10: on provider success (present key, status 200, parsed body), the
result has at most `max_results` records; the record at index `i`
corresponds to the provider item at index `i` (provider order), with the
provider's title and channel, and with the description kept verbatim when
at most 200 characters and otherwise cut to its first 200 characters plus
an ellipsis marker. -/
theorem C10_search_success (key q : String) (n : Nat) (items : List SearchItem) :
    (search_youtube_videos (some key) (.resp 200 (.parsed items)) q n).length ≤ n ∧
    ∀ (i : Nat) (v : VideoInfo) (it : SearchItem),
      (search_youtube_videos (some key) (.resp 200 (.parsed items)) q n).get? i = some v →
      items.get? i = some it →
      v.title = it.snippet_title ∧
      v.channel = it.snippet_channelTitle ∧
      v.description = (if it.snippet_description.length > 200
        then it.snippet_description.take 200 ++ "..."
        else it.snippet_description) := by
  have hout : search_youtube_videos (some key) (.resp 200 (.parsed items)) q n
      = (items.take n).map videoInfoOfItem := rfl
  constructor
  · rw [hout, List.length_map]
    exact List.length_take_le n items
  · intro i v it hv hit
    rw [hout, List.get?_map] at hv
    cases hq : (items.take n).get? i with
    | none =>
      rw [hq] at hv
      simp at hv
    | some it2 =>
      rw [hq] at hv
      have hi : i < n := by
        obtain ⟨hlt, -⟩ := List.get?_eq_some.mp hq
        rw [List.length_take] at hlt
        omega
      rw [List.get?_take hi, hit] at hq
      have hit2 : it2 = it := by
        have := hq
        simpa using this.symm
      have hv' : videoInfoOfItem it2 = v := by
        simpa using hv
      subst hit2
      subst hv'
      exact ⟨rfl, rfl, rfl⟩

/-- C10, witness: one provider item with a short description at
`max_results = 2`. -/
theorem C10_witness :
    (search_youtube_videos (some "k") (.resp 200 (.parsed
        [SearchItem.mk "abc" "Intro" "short clip" "Chan" "2024-01-01" "thumbs"]))
      "query" 2).length ≤ 2 ∧
    ∀ (i : Nat) (v : VideoInfo) (it : SearchItem),
      (search_youtube_videos (some "k") (.resp 200 (.parsed
          [SearchItem.mk "abc" "Intro" "short clip" "Chan" "2024-01-01" "thumbs"]))
        "query" 2).get? i = some v →
      [SearchItem.mk "abc" "Intro" "short clip" "Chan" "2024-01-01" "thumbs"].get? i = some it →
      v.title = it.snippet_title ∧
      v.channel = it.snippet_channelTitle ∧
      v.description = (if it.snippet_description.length > 200
        then it.snippet_description.take 200 ++ "..."
        else it.snippet_description) :=
  C10_search_success "k" "query" 2
    [SearchItem.mk "abc" "Intro" "short clip" "Chan" "2024-01-01" "thumbs"]

end LearningPathAI
